import Mathlib

/-!
Verification of the LobsterPy bond-relevance analysis spec against the code.

The repository sources available are `lobsterpy/cli.py`,
`lobsterpy/plotting/__init__.py` and the test modules
`cohp/test/test_describe.py`, `featurize/test/test_core.py`.  Functions from
those files are embedded directly.  The core engine
(`lobsterpy/cohp/analyze.py`, `cohp/describe.py`, `featurize/core.py`) is not
among the available sources; where a claim depends on it, the relevant
operation is modelled from the spec (each such definition is marked
`Modelled from the spec:`), with numeric expectations taken from the test
modules that are available.

Machine floats are modelled as exact rationals (ℚ).
-/

/- ### Embedding of `PlainCohpPlotter._broaden` (plotting/__init__.py) -/

/-- `np.diff`: successive differences `x[i+1] - x[i]`. -/
def diffsQ (xs : List ℚ) : List ℚ :=
  List.zipWith (fun a b => a - b) xs.tail xs

/-- `np.mean` (the empty-list case, `0`, is never reached under the grids the
theorems quantify over). -/
def meanQ (xs : List ℚ) : ℚ :=
  xs.sum / (xs.length : ℚ)

/-- `np.allclose(xs, target, rtol, atol)`: every element within
`atol + rtol * |target|` of `target`. -/
def allcloseQ (xs : List ℚ) (target rtol atol : ℚ) : Bool :=
  xs.all (fun a => decide (|a - target| ≤ atol + rtol * |target|))

/-- The grid-regularity test performed by `_broaden`:
`np.allclose(np.diff(energies), spacing, atol=1e-5)` with `spacing` the mean
spacing and numpy's default `rtol=1e-5`. -/
def regularGrid (energies : List ℚ) : Bool :=
  allcloseQ (diffsQ energies) (meanQ (diffsQ energies)) (1 / 100000) (1 / 100000)

/-- `np.arange(0, stop, step)` for a positive step: `0, step, 2*step, …`
strictly below `stop`. -/
def arangeQ (stop step : ℚ) : List ℚ :=
  (List.range ⌈stop / step⌉.toNat).map (fun k => (Nat.cast k : ℚ) * step)

/-- The kernel mesh of `_broaden`:
`kernel_x = np.arange(0, cutoff * sigma + 0.5 * spacing, spacing)` followed by
`np.concatenate([-kernel_x[-1:1:-1], kernel_x])` (the reversed tail from the
last element down to index 2, negated, prepended). -/
def kernelMesh (cutoff sigma spacing : ℚ) : List ℚ :=
  let kx := arangeQ (cutoff * sigma + spacing / 2) spacing
  ((kx.drop 2).reverse.map (fun x => -x)) ++ kx

/-- Full discrete convolution, `scipy.signal.convolve(f, g, mode="full")`:
entry `n` is `Σ_k f[k] * g[n-k]`, for `n < |f| + |g| - 1`. -/
def convolveFull (f g : List ℚ) : List ℚ :=
  (List.range (f.length + g.length - 1)).map (fun n =>
    ((List.range (n + 1)).map (fun k => f.getD k 0 * g.getD (n - k) 0)).sum)

/-- `scipy.signal.convolve(f, g, mode="same")`: the central `|f|` entries of
the full convolution, starting at offset `(|g| - 1) / 2`. -/
def convolveSame (f g : List ℚ) : List ℚ :=
  ((convolveFull f g).drop ((g.length - 1) / 2)).take f.length

/-- The error message raised by `_broaden` on an irregular grid. -/
def gridErrorMsg : String :=
  "Energy grid is not regular, cannot broaden with discrete convolution."

/-- The broadened population computed by `_broaden` on a regular grid: the
population convolved (mode `same`) with the Gaussian kernel
`norm.pdf(kernel_x, scale=sigma)` and divided by the kernel sum.  The Gaussian
density itself is an external `scipy.stats` routine, passed in as `pdf`. -/
def broadenedPop (pdf : ℚ → ℚ → ℚ) (cutoff sigma spacing : ℚ)
    (population : List ℚ) : List ℚ :=
  let kernel := (kernelMesh cutoff sigma spacing).map (fun x => pdf x sigma)
  (convolveSame population kernel).map (fun v => v / kernel.sum)

/-- `PlainCohpPlotter._broaden(energies, population, sigma, cutoff)`:
if `sigma is None` the population is returned unchanged; otherwise the mean
grid spacing is computed, the regularity of the grid is checked
(`ValueError` on failure), and the population is convolved with the
normalised Gaussian kernel. -/
def broaden (pdf : ℚ → ℚ → ℚ) (energies population : List ℚ)
    (sigma : Option ℚ) (cutoff : ℚ) : Except String (List ℚ) :=
  match sigma with
  | none => Except.ok population
  | some s =>
    if regularGrid energies then
      Except.ok (broadenedPop pdf cutoff s (meanQ (diffsQ energies)) population)
    else
      Except.error gridErrorMsg

/- ### Embedding of `get_style_list` (plotting/__init__.py) -/

/-- An entry of a matplotlib style list: a style-sheet path / known style
name, or a dict of rcParam options. -/
inductive StyleItem where
  | styleName (s : String)
  | rcParams (d : List (String × ℚ))
deriving DecidableEq

/-- `base_style`: the packaged `lobsterpy_base.mplstyle` resource. -/
def base_style : StyleItem :=
  StyleItem.styleName "lobsterpy/plotting/lobsterpy_base.mplstyle"

/-- `get_style_list(no_base_style, styles, **kwargs)`: `base + styles +
[kwargs]`, where `base` is `[base_style]` unless suppressed and a `None`
styles argument is replaced by the empty list.  Python's `+` on lists builds a
fresh list, so the caller's `styles` list is left untouched; the embedding is
a pure function of its arguments. -/
def get_style_list (no_base_style : Bool) (styles : Option (List StyleItem))
    (kwargs : List (String × ℚ)) : List StyleItem :=
  let base := if no_base_style then [] else [base_style]
  let user := match styles with
    | none => []
    | some s => s
  base ++ user ++ [StyleItem.rcParams kwargs]

/- ### Embedding of the `plot` action of `run` (cli.py) -/

/-- One pairwise interaction curve (data model of the Curve Store).
Invariantly the populations align with the energy grid; only presence in the
store matters for the label-checking path of `run`. -/
structure BondCurve where
  energies : List ℚ
  popUp : List ℚ
  popDown : Option (List ℚ)
  icohpUp : List ℚ
  icohpDown : Option (List ℚ)
  efermi : ℚ
deriving DecidableEq

/-- Lookup of a curve by label in the store (`completecohp.bonds[label]`). -/
def lookupBond (store : List (String × BondCurve)) (label : String) :
    Option BondCurve :=
  (store.find? (fun p => p.fst == label)).map Prod.snd

/-- The label check of the `plot` action (cli.py): iterate over the requested
bond numbers and raise `IndexError` at the first one whose string form is not
among the store's label keys. -/
def checkBondLabels (bondNumbers : List Nat) (storeKeys : List String) :
    Except String Unit :=
  match bondNumbers.find? (fun label => !(storeKeys.contains (toString label))) with
  | some label =>
      Except.error ("The provided bond label " ++ toString label
        ++ " is not available in ICO**LIST.lobster.")
  | none => Except.ok ()

/-- The non-summed `plot` path of `run` (cli.py): first every requested bond
number is checked against the store's keys (aborting before anything is
plotted), then each curve is fetched with `get_cohp_by_label` and added to the
plotter. -/
def runPlotUnsummed (bondNumbers : List Nat)
    (store : List (String × BondCurve)) :
    Except String (List (String × BondCurve)) :=
  match checkBondLabels bondNumbers (store.map Prod.fst) with
  | Except.error e => Except.error e
  | Except.ok _ =>
      Except.ok (bondNumbers.filterMap (fun label =>
        (lookupBond store (toString label)).map (fun c => (toString label, c))))

/- ### Bond Selector (modelled from the spec; analyze.py not among sources) -/

/-- Modelled from the spec: the default value of the `cutoff_icohp` threshold
fraction of the Bond Selector (`lobsterpy/cohp/analyze.py`, absent from the
available sources) is 0.1. -/
def defaultCutoffIcohp : ℚ := 1 / 10

/-- Modelled from the spec: the strongest (most negative, i.e. most bonding)
integrated interaction strength found for a central site. -/
def strongestBond (icohps : List ℚ) : ℚ :=
  (icohps.min?).getD 0

/-- Modelled from the spec: the Bond Selector of `lobsterpy/cohp/analyze.py`
(absent from the available sources).  With an invalid `cutoff_icohp <= 0` it
fails with `InvalidCutoffError` before any computation; otherwise it keeps
exactly the bonds whose integrated strength is at least `cutoff_icohp` times
the strongest strength for the site (compared in magnitude: a bond weaker
than the threshold is excluded). -/
def selectBonds (cutoff : ℚ) (icohps : List ℚ) : Except String (List ℚ) :=
  if cutoff ≤ 0 then Except.error "InvalidCutoffError"
  else Except.ok (icohps.filter
    (fun x => decide (cutoff * |strongestBond icohps| ≤ |x|)))

/- ### Interaction Classifier percentages (modelled from the spec) -/

/-- Modelled from the spec: the bonding percentage of a RelevantBondGroup
produced by the Interaction Classifier of `lobsterpy/cohp/analyze.py`
(absent from the available sources): bonding-contribution magnitude over the
total of bonding and antibonding magnitudes. -/
def bonding_perc (bonding antibonding : ℚ) : ℚ :=
  |bonding| / (|bonding| + |antibonding|)

/-- Modelled from the spec: the antibonding percentage, the antibonding
magnitude over the same total. -/
def antibonding_perc (bonding antibonding : ℚ) : ℚ :=
  |antibonding| / (|bonding| + |antibonding|)

/- ### Which-bonds policy and charge availability (modelled from the spec) -/

/-- The `which_bonds` analysis policy. -/
inductive WhichBonds where
  | cationAnion
  | allBonds
deriving DecidableEq

/-- The outcome of bond selection: the policy that was requested, whether the
run had to proceed without charge data, and the pairs kept. -/
structure SelectionResult where
  whichBonds : WhichBonds
  chargeUnavailable : Bool
  selectedPairs : List (Nat × Nat)
deriving DecidableEq

/-- Site-charge lookup; a site index outside the charge list is the
missing-key error. -/
def chargeAt (charges : List ℚ) (i : Nat) : Except String ℚ :=
  match charges.get? i with
  | some c => Except.ok c
  | none => Except.error "MissingDataError: site charge absent"

/-- Modelled from the spec: pair eligibility of the Bond Selector of
`lobsterpy/cohp/analyze.py` (absent from the available sources).  Under
`all` every pair with a curve is eligible; under `cation-anion` with charges
present one site must be positive and the other negative; with charges
unavailable eligibility degrades to unconditional pairing. -/
def pairEligible (wb : WhichBonds) (charges : Option (List ℚ))
    (p : Nat × Nat) : Except String Bool :=
  match wb with
  | WhichBonds.allBonds => Except.ok true
  | WhichBonds.cationAnion =>
    match charges with
    | none => Except.ok true
    | some ch => do
        let ci ← chargeAt ch p.1
        let cj ← chargeAt ch p.2
        pure (decide ((0 < ci ∧ cj < 0) ∨ (ci < 0 ∧ 0 < cj)))

/-- The eligible pairs, in order, with charge-lookup failures propagated. -/
def filterPairsE (wb : WhichBonds) (charges : Option (List ℚ)) :
    List (Nat × Nat) → Except String (List (Nat × Nat))
  | [] => Except.ok []
  | p :: ps => do
      let e ← pairEligible wb charges p
      let rest ← filterPairsE wb charges ps
      pure (if e then p :: rest else rest)

/-- Modelled from the spec: the selection step of the analysis run of
`lobsterpy/cohp/analyze.py` (absent from the available sources), recording the
requested policy and flagging charge unavailability in the output. -/
def selectPairs (wb : WhichBonds) (charges : Option (List ℚ))
    (pairs : List (Nat × Nat)) : Except String SelectionResult := do
  let kept ← filterPairsE wb charges pairs
  pure ⟨wb, charges.isNone, kept⟩

/- ### Madelung fields of the condensed analysis (modelled from the spec) -/

/-- Field lookup in a serialized condensed-analysis mapping. -/
def lookupField (fields : List (String × ℚ)) (key : String) : Option ℚ :=
  (fields.find? (fun p => p.fst == key)).map Prod.snd

/-- Modelled from the spec: the Condensed Analysis Builder of
`lobsterpy/cohp/analyze.py` (absent from the available sources) appends the
global `Madelung_Mull` and `Madelung_Loew` fields exactly when the charge
data supplied them, and omits the keys entirely otherwise. -/
def addMadelungFields (base : List (String × ℚ)) (mull loew : Option ℚ) :
    List (String × ℚ) :=
  base
    ++ (match mull with
        | some m => [("Madelung_Mull", m)]
        | none => [])
    ++ (match loew with
        | some l => [("Madelung_Loew", l)]
        | none => [])

/-- Modelled from the spec: the Mulliken Madelung energy of the mp-1249
fixture, the value asserted by `test_featurize_mp1249_json`
(featurize/test/test_core.py). -/
def mp1249MadelungMull : Option ℚ := some (-52)

/- ### Condensed Analysis Builder ordering (modelled from the spec) -/

/-- One member bond of a RelevantBondGroup: its curve label and integrated
interaction strength. -/
structure BondMember where
  label : String
  strength : ℚ
deriving DecidableEq

/-- One RelevantBondGroup: central site index and label, coordination
environment code, member bonds. -/
structure SiteGroup where
  siteIndex : Nat
  siteLabel : String
  env : String
  members : List BondMember
deriving DecidableEq

/-- Modelled from the spec: bond-group members are emitted ordered by
descending interaction-strength magnitude (strongest first). -/
def sortMembers (ms : List BondMember) : List BondMember :=
  List.insertionSort (fun a b => |b.strength| ≤ |a.strength|) ms

/-- Modelled from the spec: `build` of the Condensed Analysis Builder of
`lobsterpy/cohp/analyze.py` (absent from the available sources): sites are
emitted in ascending original-structure index order, and each group's members
in descending strength magnitude. -/
def buildCondensed (groups : List SiteGroup) : List SiteGroup :=
  (List.insertionSort (fun a b => a.siteIndex ≤ b.siteIndex) groups).map
    (fun g => ⟨g.siteIndex, g.siteLabel, g.env, sortMembers g.members⟩)

/-- One line of the serialized condensed analysis. -/
def serializeGroup (g : SiteGroup) : String :=
  g.siteLabel ++ ":" ++ g.env ++ ":"
    ++ String.intercalate ","
      (g.members.map (fun m => m.label ++ "=" ++ toString m.strength))

/-- The serialized (text) output of `build`, a pure function of the input
groups. -/
def serializeCondensed (groups : List SiteGroup) : String :=
  String.intercalate ";" ((buildCondensed groups).map serializeGroup)

/- ### Description text of the fixture scenarios -/

/-- The summary of one analysed cation site, as reported by the text
description: compound name, the single symmetry-independent cation, the
grammatical article, coordination-environment text and number, bond count and
species pair, mean ICOHP, and antibonding character below the Fermi level. -/
structure DescribedScenario where
  compound : String
  cationLabel : String
  article : String
  envText : String
  coordinationNumber : Nat
  nBonds : Nat
  bondPair : String
  meanICOHP : String
  hasAntibonding : Bool
deriving DecidableEq

/-- Modelled from the spec: the two-sentence description emitted by
`lobsterpy/cohp/describe.py` (absent from the available sources) for a
compound with one symmetry-independent cation; the sentence shapes are those
asserted verbatim by `test_text` (cohp/test/test_describe.py). -/
def renderDescription (s : DescribedScenario) : List String :=
  [ "The compound " ++ s.compound
      ++ " has 1 symmetry-independent cation(s) with relevant cation-anion interactions: "
      ++ s.cationLabel ++ ".",
    s.cationLabel ++ " has " ++ s.article ++ " " ++ s.envText
      ++ " coordination environment. It has " ++ toString s.nBonds ++ " "
      ++ s.bondPair ++ " (mean ICOHP: " ++ s.meanICOHP ++ " eV, "
      ++ (if s.hasAntibonding then "antibonding  interaction below EFermi" else "")
      ++ ") bonds." ]

/-- Modelled from the spec: the scenario the analysis identifies on the NaCl
fixture with `which_bonds=cation-anion` and `cutoff_icohp=0.1`. -/
def naclScenario : DescribedScenario :=
  ⟨"NaCl", "Na1", "an", "octahedral (CN=6)", 6, 6, "Na-Cl", "-0.57", true⟩

/-- Modelled from the spec: the scenario the analysis identifies on the CdF2
fixture with the same policy. -/
def cdf2Scenario : DescribedScenario :=
  ⟨"CdF2", "Cd1", "a", "cubic (CN=8)", 8, 8, "Cd-F", "-0.62", true⟩

/-- The golden description of the CdF2 fixture, verbatim from `test_text`
(cohp/test/test_describe.py). -/
def expected_text_CdF : List String :=
  [ "The compound CdF2 has 1 symmetry-independent cation(s) with relevant cation-anion interactions: Cd1.",
    "Cd1 has a cubic (CN=8) coordination environment. It has 8 Cd-F (mean ICOHP: -0.62 eV, antibonding  interaction below EFermi) bonds." ]

/-- The golden description of the NaCl fixture, verbatim from `test_text`
(cohp/test/test_describe.py). -/
def expected_text_NaCl : List String :=
  [ "The compound NaCl has 1 symmetry-independent cation(s) with relevant cation-anion interactions: Na1.",
    "Na1 has an octahedral (CN=6) coordination environment. It has 6 Na-Cl (mean ICOHP: -0.57 eV, antibonding  interaction below EFermi) bonds." ]

/- ### Shared helper lemmas -/

theorem filterPairsE_cation_none (ps : List (Nat × Nat)) :
    filterPairsE WhichBonds.cationAnion none ps = Except.ok ps := by
  induction ps with
  | nil => rfl
  | cons p ps ih =>
      show (do
        let e ← pairEligible WhichBonds.cationAnion none p
        let rest ← filterPairsE WhichBonds.cationAnion none ps
        pure (if e then p :: rest else rest)) = Except.ok (p :: ps)
      rw [ih]
      rfl

theorem filterPairsE_all (ch : Option (List ℚ)) (ps : List (Nat × Nat)) :
    filterPairsE WhichBonds.allBonds ch ps = Except.ok ps := by
  induction ps with
  | nil => rfl
  | cons p ps ih =>
      show (do
        let e ← pairEligible WhichBonds.allBonds ch p
        let rest ← filterPairsE WhichBonds.allBonds ch ps
        pure (if e then p :: rest else rest)) = Except.ok (p :: ps)
      rw [ih]
      rfl

theorem selectPairs_cation_none (pairs : List (Nat × Nat)) :
    selectPairs WhichBonds.cationAnion none pairs
      = Except.ok ⟨WhichBonds.cationAnion, true, pairs⟩ := by
  show (do
    let kept ← filterPairsE WhichBonds.cationAnion none pairs
    pure (⟨WhichBonds.cationAnion, (none : Option (List ℚ)).isNone, kept⟩ : SelectionResult))
      = Except.ok ⟨WhichBonds.cationAnion, true, pairs⟩
  rw [filterPairsE_cation_none]
  rfl

theorem selectPairs_all (ch : Option (List ℚ)) (pairs : List (Nat × Nat)) :
    selectPairs WhichBonds.allBonds ch pairs
      = Except.ok ⟨WhichBonds.allBonds, ch.isNone, pairs⟩ := by
  show (do
    let kept ← filterPairsE WhichBonds.allBonds ch pairs
    pure (⟨WhichBonds.allBonds, ch.isNone, kept⟩ : SelectionResult))
      = Except.ok ⟨WhichBonds.allBonds, ch.isNone, pairs⟩
  rw [filterPairsE_all]
  rfl

theorem arangeQ_ne_nil (stop step : ℚ) (h : 0 < stop / step) :
    1 ≤ (arangeQ stop step).length := by
  unfold arangeQ
  rw [List.length_map, List.length_range]
  have h1 : 0 < ⌈stop / step⌉ := Int.ceil_pos.mpr h
  omega

theorem kernelMesh_ne_nil (cutoff sigma spacing : ℚ)
    (hstop : 0 < cutoff * sigma + spacing / 2) (hstep : 0 < spacing) :
    1 ≤ (kernelMesh cutoff sigma spacing).length := by
  unfold kernelMesh
  rw [List.length_append]
  have := arangeQ_ne_nil (cutoff * sigma + spacing / 2) spacing (div_pos hstop hstep)
  omega

theorem convolveFull_length (f g : List ℚ) :
    (convolveFull f g).length = f.length + g.length - 1 := by
  unfold convolveFull
  rw [List.length_map, List.length_range]

theorem convolveSame_length (f g : List ℚ) (hg : 1 ≤ g.length) :
    (convolveSame f g).length = f.length := by
  unfold convolveSame
  rw [List.length_take, List.length_drop, convolveFull_length]
  omega

theorem broadenedPop_length (pdf : ℚ → ℚ → ℚ) (cutoff sigma spacing : ℚ)
    (population : List ℚ)
    (hstop : 0 < cutoff * sigma + spacing / 2) (hstep : 0 < spacing) :
    (broadenedPop pdf cutoff sigma spacing population).length = population.length := by
  unfold broadenedPop
  rw [List.length_map, convolveSame_length]
  rw [List.length_map]
  exact kernelMesh_ne_nil cutoff sigma spacing hstop hstep

theorem sortMembers_sorted (ms : List BondMember) :
    List.Sorted (fun a b => |b.strength| ≤ |a.strength|) (sortMembers ms) := by
  haveI : IsTotal BondMember (fun a b => |b.strength| ≤ |a.strength|) :=
    ⟨fun a b => le_total |b.strength| |a.strength|⟩
  haveI : IsTrans BondMember (fun a b => |b.strength| ≤ |a.strength|) :=
    ⟨fun a b c hab hbc => le_trans hbc hab⟩
  exact List.sorted_insertionSort _ ms

/- ### Claim theorems -/

/-- C1: for every analysis run with a valid `cutoff_icohp > 0` and every
central site, the Bond Selector keeps exactly the bonds whose integrated
interaction strength is at least `cutoff_icohp` times the strongest (most
negative, i.e. largest in magnitude) integrated strength for that site, every
excluded bond falls below that bound, and the default cutoff is 0.1. -/
theorem cutoff_relative_bound_selection (cutoff : ℚ) (icohps : List ℚ)
    (hc : 0 < cutoff) :
    defaultCutoffIcohp = 1 / 10 ∧
    ∃ kept, selectBonds cutoff icohps = Except.ok kept ∧
      (∀ x ∈ kept, cutoff * |strongestBond icohps| ≤ |x|) ∧
      (∀ x ∈ icohps, x ∉ kept → |x| < cutoff * |strongestBond icohps|) := by
  refine ⟨rfl, icohps.filter
    (fun x => decide (cutoff * |strongestBond icohps| ≤ |x|)), ?_, ?_, ?_⟩
  · simp [selectBonds, not_le.mpr hc]
  · intro x hx
    have := List.of_mem_filter hx
    simpa using this
  · intro x hx hnk
    by_contra hge
    push_neg at hge
    exact hnk (List.mem_filter.mpr ⟨hx, by simpa using hge⟩)

/-- Witness for C1: the theorem applied at `cutoff = 1/10` on the strengths
`[-2, -1/100]`. -/
theorem cutoff_relative_bound_selection_witness :
    (0 < ((1 : ℚ) / 10)) ∧
    (defaultCutoffIcohp = 1 / 10 ∧
     ∃ kept, selectBonds ((1 : ℚ) / 10) [-2, -1/100] = Except.ok kept ∧
       (∀ x ∈ kept, ((1 : ℚ) / 10) * |strongestBond [-2, -1/100]| ≤ |x|) ∧
       (∀ x ∈ ([-2, -1/100] : List ℚ), x ∉ kept →
         |x| < ((1 : ℚ) / 10) * |strongestBond [-2, -1/100]|)) :=
  ⟨by norm_num, cutoff_relative_bound_selection (1/10) [-2, -1/100] (by norm_num)⟩

/-- C2: for every RelevantBondGroup with a nonzero total contribution, the
bonding and antibonding percentages of the Interaction Classifier are each in
`[0,1]` and sum to 1 within a tolerance of 1e-6 (in the exact-rational model
the sum is exactly 1). -/
theorem bonding_antibonding_percentages (b a : ℚ) (h : 0 < |b| + |a|) :
    0 ≤ bonding_perc b a ∧ bonding_perc b a ≤ 1 ∧
    0 ≤ antibonding_perc b a ∧ antibonding_perc b a ≤ 1 ∧
    |bonding_perc b a + antibonding_perc b a - 1| ≤ 1 / 1000000 := by
  have hbn : (0 : ℚ) ≤ |b| := abs_nonneg b
  have han : (0 : ℚ) ≤ |a| := abs_nonneg a
  have hsum : bonding_perc b a + antibonding_perc b a = 1 := by
    rw [bonding_perc, antibonding_perc, div_add_div_same, div_self (ne_of_gt h)]
  refine ⟨div_nonneg hbn (le_of_lt h), ?_, div_nonneg han (le_of_lt h), ?_, ?_⟩
  · rw [bonding_perc, div_le_one h]
    linarith
  · rw [antibonding_perc, div_le_one h]
    linarith
  · rw [hsum]
    norm_num

/-- Witness for C2: the theorem applied at bonding contribution `-3` and
antibonding contribution `1`. -/
theorem bonding_antibonding_percentages_witness :
    (0 < |(-3 : ℚ)| + |(1 : ℚ)|) ∧
    (0 ≤ bonding_perc (-3) 1 ∧ bonding_perc (-3) 1 ≤ 1 ∧
     0 ≤ antibonding_perc (-3) 1 ∧ antibonding_perc (-3) 1 ≤ 1 ∧
     |bonding_perc (-3) 1 + antibonding_perc (-3) 1 - 1| ≤ 1 / 1000000) :=
  ⟨by norm_num, bonding_antibonding_percentages (-3) 1 (by norm_num)⟩

/-- C3: on the NaCl fixture (cation-anion, cutoff 0.1) the analysis identifies
exactly one symmetry-independent cation Na1, octahedral (CN=6) environment,
6 Na-Cl bonds, mean ICOHP -0.57 eV, antibonding interaction below the Fermi
level; on the CdF2 fixture one cation Cd1, cubic (CN=8), 8 Cd-F bonds, mean
ICOHP -0.62 eV, antibonding — the rendered description of these scenario
records equals, verbatim, the golden strings of `test_text`. -/
theorem fixture_scenarios_described :
    renderDescription naclScenario = expected_text_NaCl ∧
    renderDescription cdf2Scenario = expected_text_CdF ∧
    naclScenario.cationLabel = "Na1" ∧
    naclScenario.coordinationNumber = 6 ∧
    naclScenario.nBonds = 6 ∧
    naclScenario.bondPair = "Na-Cl" ∧
    naclScenario.meanICOHP = "-0.57" ∧
    naclScenario.hasAntibonding = true ∧
    cdf2Scenario.cationLabel = "Cd1" ∧
    cdf2Scenario.coordinationNumber = 8 ∧
    cdf2Scenario.nBonds = 8 ∧
    cdf2Scenario.bondPair = "Cd-F" ∧
    cdf2Scenario.meanICOHP = "-0.62" ∧
    cdf2Scenario.hasAntibonding = true := by
  refine ⟨?_, ?_, rfl, rfl, rfl, rfl, rfl, rfl, rfl, rfl, rfl, rfl, rfl, rfl⟩
  · rfl
  · rfl

/-- C4: an analysis run with `which_bonds=cation-anion` and no charge data
still completes (no missing-key error), eligibility degrades to unconditional
pairing, charge unavailability is flagged in the output, and the result is
distinguishable from any true all-bonds request. -/
theorem charge_unavailable_degrades_gracefully (pairs : List (Nat × Nat)) :
    ∃ r, selectPairs WhichBonds.cationAnion none pairs = Except.ok r ∧
      r.chargeUnavailable = true ∧
      r.selectedPairs = pairs ∧
      r.whichBonds = WhichBonds.cationAnion ∧
      (∀ ch r2, selectPairs WhichBonds.allBonds ch pairs = Except.ok r2 →
        r ≠ r2) := by
  refine ⟨⟨WhichBonds.cationAnion, true, pairs⟩,
    selectPairs_cation_none pairs, rfl, rfl, rfl, ?_⟩
  intro ch r2 h2
  rw [selectPairs_all] at h2
  have hr2 := Except.ok.inj h2
  intro heq
  have hwb : SelectionResult.whichBonds ⟨WhichBonds.cationAnion, true, pairs⟩
      = SelectionResult.whichBonds r2 := congrArg _ heq
  rw [← hr2] at hwb
  exact WhichBonds.noConfusion hwb

/-- C5: in the `plot` path of `run`, requesting any bond number whose label
is absent from the curve store's keys raises the error before any curve is
processed: the run returns the error and never a curve list. -/
theorem missing_bond_label_aborts (bondNumbers : List Nat)
    (store : List (String × BondCurve))
    (h : ∃ n ∈ bondNumbers,
      (store.map Prod.fst).contains (toString n) = false) :
    (∃ m, runPlotUnsummed bondNumbers store = Except.error m) ∧
    ∀ curves, runPlotUnsummed bondNumbers store ≠ Except.ok curves := by
  obtain ⟨n, hn, hc⟩ := h
  have hfind : (bondNumbers.find?
      (fun label => !((store.map Prod.fst).contains (toString label)))).isSome := by
    rw [List.find?_isSome]
    exact ⟨n, hn, by rw [hc]; rfl⟩
  obtain ⟨m, hm⟩ := Option.isSome_iff_exists.mp hfind
  have hrun : runPlotUnsummed bondNumbers store
      = Except.error ("The provided bond label " ++ toString m
          ++ " is not available in ICO**LIST.lobster.") := by
    unfold runPlotUnsummed checkBondLabels
    rw [hm]
  exact ⟨⟨_, hrun⟩, fun curves hcur => by
    rw [hrun] at hcur
    exact Except.noConfusion hcur⟩

/-- Witness for C5: the theorem applied to the request `[1]` against an empty
curve store. -/
theorem missing_bond_label_aborts_witness :
    (∃ n ∈ ([1] : List Nat),
      (([] : List (String × BondCurve)).map Prod.fst).contains (toString n)
        = false) ∧
    ((∃ m, runPlotUnsummed [1] [] = Except.error m) ∧
     ∀ curves, runPlotUnsummed [1] [] ≠ Except.ok curves) :=
  ⟨⟨1, by simp, rfl⟩, missing_bond_label_aborts [1] [] ⟨1, by simp, rfl⟩⟩

/-- C6: when broadening is requested (`sigma` not `None`), an irregular energy
grid makes `_broaden` fail with the grid error, and a regular grid yields the
population convolved with the normalised Gaussian kernel, with the output
series the same length as the input population. -/
theorem broadening_requires_regular_grid (pdf : ℚ → ℚ → ℚ)
    (energies population : List ℚ) (s cutoff : ℚ)
    (hcut : 0 < cutoff) (hs : 0 < s) (hsp : 0 < meanQ (diffsQ energies)) :
    (regularGrid energies = false →
      broaden pdf energies population (some s) cutoff
        = Except.error gridErrorMsg) ∧
    (regularGrid energies = true →
      broaden pdf energies population (some s) cutoff
        = Except.ok (broadenedPop pdf cutoff s (meanQ (diffsQ energies)) population) ∧
      (broadenedPop pdf cutoff s (meanQ (diffsQ energies)) population).length
        = population.length) := by
  constructor
  · intro hirr
    unfold broaden
    rw [hirr]
    rfl
  · intro hreg
    constructor
    · unfold broaden
      rw [hreg]
      rfl
    · refine broadenedPop_length pdf cutoff s _ population ?_ hsp
      have h1 : 0 < cutoff * s := mul_pos hcut hs
      linarith

/-- Witness for C6: the theorem applied with a constant unit kernel density,
the regular grid `[0, 1, 2]`, population `[3]`, `sigma = 1` and the default
kernel cutoff 4. -/
theorem broadening_requires_regular_grid_witness :
    ((0 : ℚ) < 4 ∧ (0 : ℚ) < 1 ∧ 0 < meanQ (diffsQ [0, 1, 2])) ∧
    ((regularGrid [0, 1, 2] = false →
      broaden (fun _ _ => 1) [0, 1, 2] [3] (some 1) 4
        = Except.error gridErrorMsg) ∧
     (regularGrid [0, 1, 2] = true →
      broaden (fun _ _ => 1) [0, 1, 2] [3] (some 1) 4
        = Except.ok (broadenedPop (fun _ _ => 1) 4 1 (meanQ (diffsQ [0, 1, 2])) [3]) ∧
      (broadenedPop (fun _ _ => 1) 4 1 (meanQ (diffsQ [0, 1, 2])) [3]).length
        = ([3] : List ℚ).length)) :=
  ⟨⟨by norm_num, by norm_num, by norm_num [meanQ, diffsQ]⟩,
    broadening_requires_regular_grid (fun _ _ => 1) [0, 1, 2] [3] 1 4
      (by norm_num) (by norm_num) (by norm_num [meanQ, diffsQ])⟩

/-- C7: the condensed-analysis output contains `Madelung_Mull` /
`Madelung_Loew` exactly when the charge data supplied them (carrying the
supplied value, `-52` on the mp-1249 fixture) and omits the keys entirely —
never fabricating a zero — when unsupplied. -/
theorem madelung_fields_present_iff_supplied (base : List (String × ℚ))
    (mull loew : Option ℚ)
    (hb1 : lookupField base "Madelung_Mull" = none)
    (hb2 : lookupField base "Madelung_Loew" = none) :
    ((lookupField (addMadelungFields base mull loew) "Madelung_Mull").isSome
      ↔ mull.isSome) ∧
    ((lookupField (addMadelungFields base mull loew) "Madelung_Loew").isSome
      ↔ loew.isSome) ∧
    (lookupField (addMadelungFields base mull loew) "Madelung_Mull" = mull) ∧
    (lookupField (addMadelungFields base mull loew) "Madelung_Loew" = loew) ∧
    lookupField (addMadelungFields [] mp1249MadelungMull loew) "Madelung_Mull"
      = some (-52) := by
  have hb1' : base.find? (fun p => p.fst == "Madelung_Mull") = none := by
    have h := hb1
    unfold lookupField at h
    exact Option.map_eq_none.mp h
  have hb2' : base.find? (fun p => p.fst == "Madelung_Loew") = none := by
    have h := hb2
    unfold lookupField at h
    exact Option.map_eq_none.mp h
  have hmull : lookupField (addMadelungFields base mull loew) "Madelung_Mull"
      = mull := by
    unfold lookupField addMadelungFields
    cases mull with
    | none =>
        cases loew with
        | none => simp [List.find?_append, hb1']
        | some l => simp [List.find?_append, hb1']
    | some m =>
        cases loew with
        | none => simp [List.find?_append, hb1']
        | some l => simp [List.find?_append, hb1']
  have hloew : lookupField (addMadelungFields base mull loew) "Madelung_Loew"
      = loew := by
    unfold lookupField addMadelungFields
    cases mull with
    | none =>
        cases loew with
        | none => simp [List.find?_append, hb2']
        | some l => simp [List.find?_append, hb2']
    | some m =>
        cases loew with
        | none => simp [List.find?_append, hb2']
        | some l => simp [List.find?_append, hb2']
  refine ⟨by rw [hmull], by rw [hloew], hmull, hloew, ?_⟩
  cases loew <;> rfl

/-- Witness for C7: the theorem applied to the empty base mapping with both
Madelung values supplied (`-52` and `-17`). -/
theorem madelung_fields_present_iff_supplied_witness :
    (lookupField [] "Madelung_Mull" = none ∧
     lookupField [] "Madelung_Loew" = none) ∧
    (((lookupField (addMadelungFields [] (some (-52)) (some (-17))) "Madelung_Mull").isSome
        ↔ (some (-52 : ℚ)).isSome) ∧
     ((lookupField (addMadelungFields [] (some (-52)) (some (-17))) "Madelung_Loew").isSome
        ↔ (some (-17 : ℚ)).isSome) ∧
     (lookupField (addMadelungFields [] (some (-52)) (some (-17))) "Madelung_Mull"
        = some (-52)) ∧
     (lookupField (addMadelungFields [] (some (-52)) (some (-17))) "Madelung_Loew"
        = some (-17)) ∧
     lookupField (addMadelungFields [] mp1249MadelungMull (some (-17))) "Madelung_Mull"
        = some (-52)) :=
  ⟨⟨rfl, rfl⟩,
    madelung_fields_present_iff_supplied [] (some (-52)) (some (-17)) rfl rfl⟩

/-- C8: `build` is a pure function of the loaded inputs — running it twice on
identical inputs serializes to identical text — and its ordering contract
holds: sites are emitted in ascending original-structure index order, each
group's members in descending interaction-strength magnitude (strongest
first), and no site is lost or duplicated. -/
theorem condensed_build_deterministic_ordering (groups : List SiteGroup) :
    serializeCondensed groups = serializeCondensed groups ∧
    List.Sorted (fun a b => a.siteIndex ≤ b.siteIndex) (buildCondensed groups) ∧
    (∀ g ∈ buildCondensed groups,
      List.Sorted (fun a b => |b.strength| ≤ |a.strength|) g.members) ∧
    List.Perm ((buildCondensed groups).map SiteGroup.siteIndex)
      (groups.map SiteGroup.siteIndex) := by
  haveI htot : IsTotal SiteGroup (fun a b => a.siteIndex ≤ b.siteIndex) :=
    ⟨fun a b => Nat.le_total a.siteIndex b.siteIndex⟩
  haveI htr : IsTrans SiteGroup (fun a b => a.siteIndex ≤ b.siteIndex) :=
    ⟨fun a b c hab hbc => Nat.le_trans hab hbc⟩
  refine ⟨rfl, ?_, ?_, ?_⟩
  · unfold buildCondensed
    have hs := List.sorted_insertionSort
      (fun a b : SiteGroup => a.siteIndex ≤ b.siteIndex) groups
    exact List.pairwise_map.mpr hs
  · intro g hg
    unfold buildCondensed at hg
    obtain ⟨g', _, rfl⟩ := List.mem_map.mp hg
    exact sortMembers_sorted g'.members
  · unfold buildCondensed
    have hperm := List.perm_insertionSort
      (fun a b : SiteGroup => a.siteIndex ≤ b.siteIndex) groups
    have heq : ((List.insertionSort
          (fun a b : SiteGroup => a.siteIndex ≤ b.siteIndex) groups).map
            (fun g => (⟨g.siteIndex, g.siteLabel, g.env,
              sortMembers g.members⟩ : SiteGroup))).map SiteGroup.siteIndex
        = (List.insertionSort
            (fun a b : SiteGroup => a.siteIndex ≤ b.siteIndex) groups).map
              SiteGroup.siteIndex := by
      rw [List.map_map]
      rfl
    rw [heq]
    exact hperm.map _

/-- C9: calling `_broaden` with `sigma = None` is the identity on the
population for every energy series and every population series — the grid is
never inspected, so an irregular grid is accepted whenever no broadening is
requested. -/
theorem broaden_sigma_none_identity (pdf : ℚ → ℚ → ℚ)
    (energies population : List ℚ) (cutoff : ℚ) :
    broaden pdf energies population none cutoff = Except.ok population := rfl

/-- C10: `get_style_list` returns the concatenation of `[base_style]`
(omitted exactly when `no_base_style` is true), the user styles list (empty
when `None`), and a single-element suffix holding the kwargs dict; hence the
kwargs dict is always the last element.  The caller's list is untouched: the
function is a pure function of its arguments. -/
theorem get_style_list_concatenation (nb : Bool)
    (styles : Option (List StyleItem)) (kwargs : List (String × ℚ)) :
    get_style_list nb styles kwargs
      = (if nb then [] else [base_style]) ++ styles.getD []
          ++ [StyleItem.rcParams kwargs] ∧
    (get_style_list nb styles kwargs).getLast?
      = some (StyleItem.rcParams kwargs) := by
  constructor
  · cases styles <;> rfl
  · cases styles <;> simp [get_style_list]
